import Mathlib

/-!
# Verification of the M365 Copilot MCP authentication subsystem

A shallow embedding of `src/auth/identity.ts` (the `AuthenticationManager`
class, its module-level singleton state, and the exported operations
`getAuthManager`, `resetAuthManager`, `isAuthenticationReady`, `logout`,
`requireAuthentication`) together with the error classes of
`src/utils/errors.ts`.

External effects (the Azure identity provider, the file system, the
serialization functions of `@azure/identity`) are modelled as explicit
oracle parameters; all state mutation is explicit state passing.
Timestamps are integers in milliseconds, mirroring `Date.now()` and
`expiresOnTimestamp`.
-/

namespace M365

/-- A JavaScript `Error` as observed by the catch blocks: a `name` and a
`message`. -/
structure JsError where
  name : String
  message : String
deriving DecidableEq, Repr

/-- Model of `AccessToken` from `@azure/identity`: the bearer token string and its
absolute expiry timestamp in milliseconds. -/
structure AccessToken where
  token : String
  expiresOnTimestamp : Int
deriving DecidableEq, Repr

/-- One entry of the in-memory token cache:
`{ token: AccessToken; expiresAt: number }`. -/
structure CacheEntry where
  token : AccessToken
  expiresAt : Int
deriving DecidableEq, Repr

/-- The dynamic type of the credential object held by the manager
(`InteractiveBrowserCredential` or `DeviceCodeCredential`), as tested by
the `instanceof` checks in `getAccessToken`. -/
inductive CredKind where
  | interactiveBrowser
  | deviceCode
deriving DecidableEq, Repr

/-- Model of `AuthenticationRecord` from `@azure/identity`: non-secret account
metadata only (authority, home account id, tenant, username, client id).
It has no token, refresh-token or secret field. -/
structure AuthenticationRecord where
  authority : String
  homeAccountId : String
  tenantId : String
  username : String
  clientId : String
deriving DecidableEq, Repr

/-- The `AzureConfig` interface: every field optional.  `authMethod` is
kept as a raw string because the TypeScript cast
`process.env.AUTH_METHOD as AuthMethod` performs no validation. -/
structure AzureConfig where
  tenantId : Option String
  clientId : Option String
  clientSecret : Option String
  authMethod : Option String
deriving DecidableEq, Repr

/-- The error objects built by `src/utils/errors.ts`: every class sets a
`name`, a `code` and an optional `details` record.  Details are modelled
as a key/value list (values rendered as strings). -/
structure AppError where
  name : String
  code : String
  message : String
  details : List (String × String)
deriving DecidableEq, Repr

/-- Model of `new AuthenticationError(message, details)`. -/
def mkAuthenticationError (message : String) (details : List (String × String)) : AppError :=
  ⟨"AuthenticationError", "AUTHENTICATION_ERROR", message, details⟩

/-- Model of `new ConfigurationError(message, details)`. -/
def mkConfigurationError (message : String) (details : List (String × String)) : AppError :=
  ⟨"ConfigurationError", "CONFIGURATION_ERROR", message, details⟩

/-- JavaScript truthiness of an optional string: `undefined` and `""` are
falsy, every other string is truthy. -/
def truthy : Option String → Bool
  | none => false
  | some s => s != ""

/-- JavaScript `a || d` for an optional string `a` and a (truthy) default
`d`. -/
def jsOr (v : Option String) (d : String) : String :=
  match v with
  | none => d
  | some s => if s == "" then d else s

/-- Substring containment on character lists. -/
def charsContainSub (pat hay : List Char) : Bool :=
  hay.tails.any (fun t => pat.isPrefixOf t)

/-- Rendering of `s.toLowerCase()` as a character list (ASCII case folding, which is
what the matched indicator strings exercise). -/
def lowerChars (s : String) : List Char :=
  s.toList.map Char.toLower

/-- The relevant `process.env` variables read by `loadConfigFromEnv`. -/
structure Env where
  azureTenantId : Option String
  azureClientId : Option String
  azureClientSecret : Option String
  authMethod : Option String
deriving DecidableEq, Repr

/-- Model of `AuthenticationManager.loadConfigFromEnv`. -/
def loadConfigFromEnv (env : Env) : AzureConfig :=
  { tenantId := some (jsOr env.azureTenantId "common")
    clientId := some (jsOr env.azureClientId "f44ab954-9e38-4330-aa49-e93d73ab0ea6")
    clientSecret := env.azureClientSecret
    authMethod := some (jsOr env.authMethod "InteractiveBrowser") }

/-- The private fields of one `AuthenticationManager` instance.  The token
cache (a JavaScript `Map`) is an association list with overwrite-on-set
semantics. -/
structure ManagerState where
  credential : Option CredKind
  config : AzureConfig
  tokenCache : List (String × CacheEntry)
  authRecord : Option AuthenticationRecord
deriving DecidableEq, Repr

/-- Model of `Map.prototype.get`. -/
def cacheGet (c : List (String × CacheEntry)) (k : String) : Option CacheEntry :=
  (c.find? (fun p => p.1 == k)).map (fun p => p.2)

/-- Model of `Map.prototype.set` (overwrites any prior entry for the key). -/
def cacheSet (c : List (String × CacheEntry)) (k : String) (v : CacheEntry) :
    List (String × CacheEntry) :=
  (k, v) :: c.filter (fun p => p.1 != k)

/-- Model of `new AuthenticationManager(config)`: `config || loadConfigFromEnv()`. -/
def mkManager (config : Option AzureConfig) (env : Env) : ManagerState :=
  { credential := none
    config := match config with
      | some c => c
      | none => loadConfigFromEnv env
    tokenCache := []
    authRecord := none }

/-- Model of `AuthenticationManager.isConfigured`: `!!(tenantId && clientId)`. -/
def isConfigured (cfg : AzureConfig) : Bool :=
  truthy cfg.tenantId && truthy cfg.clientId

/-- The substring list of `shouldFallbackToDeviceCode`. -/
def headlessIndicators : List String :=
  [ "Unable to open a browser", "no browser", "DISPLAY", "headless",
    "Cannot open browser", "browser window", "CredentialUnavailableError" ]

/-- Model of `AuthenticationManager.shouldFallbackToDeviceCode`: case-insensitive
substring match of the error message or error name against the headless
indicator list. -/
def shouldFallbackToDeviceCode (e : JsError) : Bool :=
  headlessIndicators.any (fun indicator =>
    charsContainSub (lowerChars indicator) (lowerChars e.message) ||
    charsContainSub (lowerChars indicator) (lowerChars e.name))

/-- Outcome of one `credential.getToken(scopes)` round trip, supplied by
the environment: either a thrown error, or a (possibly `undefined`)
`AccessToken`. -/
abbrev TokenAttempt := Except JsError (Option AccessToken)

/-- Result of `getAccessToken`: the returned token string or the thrown
error, the manager state afterwards (mutations persist even when an error
is thrown), and the number of provider round trips (`credential.getToken`
calls) performed. -/
structure GetTokenOutcome where
  result : Except AppError String
  state : ManagerState
  attempts : Nat
deriving Repr

/-- The outer `catch` block of `getAccessToken`: fallback to DeviceCode
when the credential is an `InteractiveBrowserCredential` and the error is
classified as a headless-environment error; otherwise re-wrap as
`AuthenticationError`.  `e` is the caught error, `used` the number of
round trips already performed. -/
def handleTokenError (m : ManagerState) (cred : CredKind) (scopeKey : String)
    (oracle : Nat → TokenAttempt) (e : JsError) (used : Nat) : GetTokenOutcome :=
  if cred == CredKind.interactiveBrowser && shouldFallbackToDeviceCode e then
    -- this.credential = this.createDeviceCodeCredential(...)
    let m1 : ManagerState := { m with credential := some CredKind.deviceCode }
    match oracle used with
    | Except.ok (some tr) =>
        ⟨Except.ok tr.token,
         { m1 with tokenCache := cacheSet m1.tokenCache scopeKey ⟨tr, tr.expiresOnTimestamp⟩ },
         used + 1⟩
    | Except.ok none =>
        -- the inner `throw new AuthenticationError(...)` is caught by the
        -- inner catch and re-wrapped with both messages
        ⟨Except.error (mkAuthenticationError
            ("Failed to obtain access token (both InteractiveBrowser and DeviceCode failed): " ++
              "Failed to obtain access token with DeviceCode")
            [("scopes", scopeKey), ("originalError", e.message),
             ("fallbackError", "Failed to obtain access token with DeviceCode")]),
         m1, used + 1⟩
    | Except.error e2 =>
        ⟨Except.error (mkAuthenticationError
            ("Failed to obtain access token (both InteractiveBrowser and DeviceCode failed): " ++
              e2.message)
            [("scopes", scopeKey), ("originalError", e.message),
             ("fallbackError", e2.message)]),
         m1, used + 1⟩
  else
    ⟨Except.error (mkAuthenticationError ("Failed to obtain access token: " ++ e.message)
        [("scopes", scopeKey), ("errorName", e.name)]),
     m, used⟩

/-- The `try` block of `getAccessToken` after a cache miss: one
`credential.getToken(scopes)` round trip, then cache the token, or hand
the caught error to the outer catch. -/
def acquireToken (m : ManagerState) (cred : CredKind) (scopeKey : String)
    (oracle : Nat → TokenAttempt) : GetTokenOutcome :=
  match oracle 0 with
  | Except.ok (some tr) =>
      ⟨Except.ok tr.token,
       { m with tokenCache := cacheSet m.tokenCache scopeKey ⟨tr, tr.expiresOnTimestamp⟩ },
       1⟩
  | Except.ok none =>
      -- the thrown AuthenticationError for a null token response,
      -- caught by the outer catch of the same function
      handleTokenError m cred scopeKey oracle
        ⟨"AuthenticationError", "Failed to obtain access token"⟩ 1
  | Except.error e =>
      handleTokenError m cred scopeKey oracle e 1

/-- Model of `AuthenticationManager.getAccessToken(scopes)` at time `now`
(`Date.now()`), with the provider round trips supplied by `oracle`
(attempt `i` of this call reads `oracle i`). -/
def getAccessToken (m : ManagerState) (scopes : List String) (now : Int)
    (oracle : Nat → TokenAttempt) : GetTokenOutcome :=
  match m.credential with
  | none =>
      ⟨Except.error (mkAuthenticationError
          "Authentication not initialized. Call initialize() first." []),
       m, 0⟩
  | some cred =>
      let scopeKey := String.intercalate "," scopes
      match cacheGet m.tokenCache scopeKey with
      | some cached =>
          if now + 5 * 60 * 1000 < cached.expiresAt then
            ⟨Except.ok cached.token.token, m, 0⟩
          else
            acquireToken m cred scopeKey oracle
      | none => acquireToken m cred scopeKey oracle

/-! ## Persistence: the account record file and the persistent cache blob -/

/-- The file system visible to the module: contents of the authentication
record file (`~/.IdentityService/m365-copilot-mcp-auth.json`) and of the
persistent token cache blob, `none` when absent. -/
structure Fs where
  authRecordFile : Option String
  tokenCacheFile : Option String
deriving DecidableEq, Repr

/-- Behaviour of the external library and file-system calls used by the
record store: whether `readFileSync`/`writeFileSync` succeed, and the
`serializeAuthenticationRecord` / `deserializeAuthenticationRecord` pair
of `@azure/identity` (`deserialize` returns `none` when it throws on
malformed input). -/
structure World where
  readOk : Bool
  writeOk : Bool
  serialize : AuthenticationRecord → String
  deserialize : String → Option AuthenticationRecord

/-- Model of `AuthenticationManager.loadAuthRecord`: reads and deserializes the
record file inside a `try`; an absent file, a failed read or a failed
deserialization all yield `null` with the manager unchanged (the caught
error is only logged). -/
def loadAuthRecord (w : World) (fs : Fs) (m : ManagerState) :
    Option AuthenticationRecord × ManagerState :=
  match fs.authRecordFile with
  | none => (none, m)
  | some data =>
      if w.readOk then
        match w.deserialize data with
        | some r => (some r, { m with authRecord := some r })
        | none => (none, m)
      else (none, m)

/-- Model of `AuthenticationManager.saveAuthRecord`: serializes and writes the
record inside a `try`; on a write failure the error is logged and
swallowed and `this.authRecord` is not updated. -/
def saveAuthRecord (w : World) (fs : Fs) (m : ManagerState)
    (r : AuthenticationRecord) : Fs × ManagerState :=
  if w.writeOk then
    ({ fs with authRecordFile := some (w.serialize r) },
     { m with authRecord := some r })
  else (fs, m)

/-- Model of `AuthenticationManager.initialize`: fails with `ConfigurationError`
when tenant or client id is missing, otherwise loads any authentication
record from disk and constructs the credential selected by
`config.authMethod` (only the exact string `"DeviceCode"` selects the
device-code flow). -/
def initManager (w : World) (fs : Fs) (m : ManagerState) :
    Except AppError ManagerState :=
  if !(truthy m.config.tenantId && truthy m.config.clientId) then
    Except.error (mkConfigurationError "Missing required Azure AD configuration"
      [("hasTenantId", (if truthy m.config.tenantId then "true" else "false")),
       ("hasClientId", (if truthy m.config.clientId then "true" else "false"))])
  else
    let m1 := (loadAuthRecord w fs m).2
    let effectiveAuthMethod := jsOr m.config.authMethod "InteractiveBrowser"
    let cred := if effectiveAuthMethod == "DeviceCode" then CredKind.deviceCode
                else CredKind.interactiveBrowser
    Except.ok { m1 with credential := some cred }

/-- Outcome of one `credential.authenticate(scopes)` round trip: a thrown
error or a (possibly `undefined`) authentication record. -/
abbrev AuthenticateAttempt := Except JsError (Option AuthenticationRecord)

/-- Model of `AuthenticationManager.ensureAuthRecord`: returns immediately when a
record is already held, throws when no credential is initialized, and
otherwise performs one `authenticate` round trip whose failure is logged
and swallowed; a returned record is persisted via `saveAuthRecord`. -/
def ensureAuthRecord (w : World) (authRes : AuthenticateAttempt) (fs : Fs)
    (m : ManagerState) : Option AppError × Fs × ManagerState :=
  if m.authRecord.isSome then (none, fs, m)
  else
    match m.credential with
    | none => (some (mkAuthenticationError "Credential not initialized" []), fs, m)
    | some _ =>
        match authRes with
        | Except.error _ => (none, fs, m)
        | Except.ok none => (none, fs, m)
        | Except.ok (some r) =>
            let (fs1, m1) := saveAuthRecord w fs m r
            (none, fs1, m1)

/-! ## Module-level singleton state and exported operations -/

/-- The list `REQUIRED_SCOPES`. -/
def REQUIRED_SCOPES : List String :=
  [ "https://graph.microsoft.com/Sites.Read.All",
    "https://graph.microsoft.com/Mail.Read",
    "https://graph.microsoft.com/People.Read.All",
    "https://graph.microsoft.com/OnlineMeetingTranscript.Read.All",
    "https://graph.microsoft.com/Chat.Read",
    "https://graph.microsoft.com/ChannelMessage.Read.All",
    "https://graph.microsoft.com/ExternalItem.Read.All",
    "https://graph.microsoft.com/Files.Read.All" ]

/-- The module-level state of `identity.ts`: the singleton
`authManager`, the global `isAuthenticated` flag, and the file system. -/
structure GlobalState where
  authManager : Option ManagerState
  isAuthenticated : Bool
  fs : Fs
deriving Repr

/-- Model of `getAuthManager(config?)`: returns the existing singleton, or
constructs and stores a new manager when none exists. -/
def getAuthManager (config : Option AzureConfig) (env : Env) (s : GlobalState) :
    ManagerState × GlobalState :=
  match s.authManager with
  | some m => (m, s)
  | none =>
      let m := mkManager config env
      (m, { s with authManager := some m })

/-- Model of `resetAuthManager()`: drops the singleton and clears the flag. -/
def resetAuthManager (s : GlobalState) : GlobalState :=
  { s with authManager := none, isAuthenticated := false }

/-- Model of `isAuthenticationReady()`. -/
def isAuthenticationReady (s : GlobalState) : Bool :=
  s.isAuthenticated

/-- Whether the two `fs.unlinkSync` calls of `logout` succeed when
invoked (an absent file is never unlinked, so these flags are only
consulted when the corresponding file exists). -/
structure LogoutEnv where
  unlinkAuthRecordOk : Bool
  unlinkTokenCacheOk : Bool
deriving DecidableEq, Repr

/-- Model of `logout()`: deletes the authentication record file and the persistent
token cache blob when present, clears the in-memory cache of an existing
manager and resets the singleton and the flag.  An `unlinkSync` failure
propagates out of the `try` and is re-thrown as
`AuthenticationError` with message `Failed to logout`, leaving the remaining steps
undone (the first component carries the thrown error, the second the
state as left behind). -/
def logout (lenv : LogoutEnv) (s : GlobalState) : Option AppError × GlobalState :=
  if s.fs.authRecordFile.isSome && !lenv.unlinkAuthRecordOk then
    (some (mkAuthenticationError "Failed to logout" []), s)
  else
    let s1 : GlobalState := { s with fs := { s.fs with authRecordFile := none } }
    if s1.fs.tokenCacheFile.isSome && !lenv.unlinkTokenCacheOk then
      (some (mkAuthenticationError "Failed to logout" []), s1)
    else
      let s2 : GlobalState := { s1 with fs := { s1.fs with tokenCacheFile := none } }
      let s3 : GlobalState :=
        match s2.authManager with
        | some m => { s2 with authManager := some { m with tokenCache := [] } }
        | none => s2
      (none, resetAuthManager s3)

/-- Everything the environment supplies to one `requireAuthentication`
call: the process environment, the file-system/serialization world, the
current time, the token round-trip oracle and the outcome of a potential
`authenticate` round trip. -/
structure AuthEnv where
  env : Env
  world : World
  now : Int
  tokenOracle : Nat → TokenAttempt
  authenticateResult : AuthenticateAttempt

/-- Result of `requireAuthentication`: the thrown error (if any), the
module state afterwards, and the number of provider token round trips
performed. -/
structure ReqAuthOutcome where
  err : Option AppError
  state : GlobalState
  attempts : Nat

/-- The re-wrap performed by the catch block of `requireAuthentication`. -/
def wrapAuthFailure (msg : String) : AppError :=
  mkAuthenticationError
    ("Failed to authenticate: " ++ msg ++ ". Please check your Azure AD configuration.")
    [("error", msg)]

/-- Replace the stored singleton manager. -/
def setManager (s : GlobalState) (m : ManagerState) : GlobalState :=
  { s with authManager := some m }

/-- Model of `requireAuthentication()`: fast path on the flag, then (inside one
`try` whose catch re-wraps every error as `AuthenticationError`)
configuration check, `initialize()`, `getAccessToken(REQUIRED_SCOPES)`,
`ensureAuthRecord` when no record is held, and finally
`isAuthenticated = true`. -/
def requireAuthentication (a : AuthEnv) (s : GlobalState) : ReqAuthOutcome :=
  if s.isAuthenticated then ⟨none, s, 0⟩
  else
    let (m, s1) := getAuthManager none a.env s
    if !isConfigured m.config then
      ⟨some (wrapAuthFailure
          "Authentication not configured. Missing AZURE_TENANT_ID or AZURE_CLIENT_ID."),
       s1, 0⟩
    else
      match initManager a.world s1.fs m with
      | Except.error e => ⟨some (wrapAuthFailure e.message), s1, 0⟩
      | Except.ok m2 =>
          let out := getAccessToken m2 REQUIRED_SCOPES a.now a.tokenOracle
          let s2 := setManager s1 out.state
          match out.result with
          | Except.error err => ⟨some (wrapAuthFailure err.message), s2, out.attempts⟩
          | Except.ok _ =>
              if out.state.authRecord.isSome then
                ⟨none, { s2 with isAuthenticated := true }, out.attempts⟩
              else
                match ensureAuthRecord a.world a.authenticateResult s2.fs out.state with
                | (some err, fs1, m3) =>
                    ⟨some (wrapAuthFailure err.message),
                     { setManager s2 m3 with fs := fs1 }, out.attempts⟩
                | (none, fs1, m3) =>
                    ⟨none,
                     { setManager s2 m3 with fs := fs1, isAuthenticated := true },
                     out.attempts⟩

/-! ## The operations of the module as a step relation -/

/-- One invocation of a public operation of the module (exported function
or public method of the singleton manager), with the oracle inputs it
consumes. -/
inductive Op where
  | opGetAuthManager (config : Option AzureConfig) (env : Env)
  | opResetAuthManager
  | opIsAuthenticationReady
  | opLogout (lenv : LogoutEnv)
  | opRequireAuthentication (a : AuthEnv)
  | opInitialize (w : World)
  | opGetAccessToken (scopes : List String) (now : Int) (oracle : Nat → TokenAttempt)
  | opClearCache
  | opGetAuthStatus
  | opGetConfig
  | opEnsureAuthRecord (w : World) (authRes : AuthenticateAttempt)

/-- Apply a function to the singleton manager when it exists. -/
def onManager (s : GlobalState) (f : ManagerState → ManagerState) : GlobalState :=
  match s.authManager with
  | some m => { s with authManager := some (f m) }
  | none => s

/-- The state transition performed by one operation. -/
def step (op : Op) (s : GlobalState) : GlobalState :=
  match op with
  | Op.opGetAuthManager config env => (getAuthManager config env s).2
  | Op.opResetAuthManager => resetAuthManager s
  | Op.opIsAuthenticationReady => s
  | Op.opLogout lenv => (logout lenv s).2
  | Op.opRequireAuthentication a => (requireAuthentication a s).state
  | Op.opInitialize w =>
      onManager s (fun m =>
        match initManager w s.fs m with
        | Except.ok m1 => m1
        | Except.error _ => m)
  | Op.opGetAccessToken scopes now oracle =>
      onManager s (fun m => (getAccessToken m scopes now oracle).state)
  | Op.opClearCache => onManager s (fun m => { m with tokenCache := [] })
  | Op.opGetAuthStatus => s
  | Op.opGetConfig => s
  | Op.opEnsureAuthRecord w authRes =>
      match s.authManager with
      | some m =>
          let (_, fs1, m1) := ensureAuthRecord w authRes s.fs m
          { s with authManager := some m1, fs := fs1 }
      | none => s

/-- The module state at process start: no singleton, flag down; the file
system may hold files from a previous run. -/
def initState (fs : Fs) : GlobalState :=
  { authManager := none, isAuthenticated := false, fs := fs }

/-! ## Concrete sample values used to instantiate the theorems -/

/-- A world in which file reads and writes succeed and deserialization
always fails (arbitrary serialized form). -/
def sampleWorld : World :=
  { readOk := true, writeOk := true,
    serialize := fun r => r.username, deserialize := fun _ => none }

/-- An environment with no overrides. -/
def sampleEnv : Env := ⟨none, none, none, none⟩

/-- A sample access token expiring at t = 3_600_000 ms. -/
def sampleToken : AccessToken := ⟨"T1", 3600000⟩

/-- An oracle whose first attempt throws a headless-environment error and
whose second attempt succeeds with `sampleToken`. -/
def sampleFallbackOracle : Nat → TokenAttempt := fun n =>
  match n with
  | 0 => Except.error ⟨"Error", "Unable to open a browser"⟩
  | _ => Except.ok (some sampleToken)

/-- An oracle that always succeeds with `sampleToken`. -/
def sampleOkOracle : Nat → TokenAttempt := fun _ => Except.ok (some sampleToken)

/-- A manager holding an `InteractiveBrowserCredential` and an empty
cache, under the default configuration. -/
def sampleManager : ManagerState :=
  { credential := some CredKind.interactiveBrowser
    config := loadConfigFromEnv sampleEnv
    tokenCache := []
    authRecord := none }

/-- An explicit configuration with empty tenant and client id. -/
def emptyConfig : AzureConfig := ⟨some "", some "", none, none⟩

/-- A global state whose singleton manager is unconfigured. -/
def sampleUnconfiguredState : GlobalState :=
  { authManager := some (mkManager (some emptyConfig) sampleEnv)
    isAuthenticated := false
    fs := ⟨none, none⟩ }

/-- A fully authenticated state: populated cache, flag up, both files on
disk. -/
def samplePopulatedState : GlobalState :=
  { authManager := some { sampleManager with
      tokenCache := [("s", ⟨sampleToken, 3600000⟩)] }
    isAuthenticated := true
    fs := ⟨some "rec", some "blob"⟩ }

/-- An authentication environment built from the samples. -/
def sampleAuthEnv : AuthEnv :=
  { env := sampleEnv, world := sampleWorld, now := 0,
    tokenOracle := sampleOkOracle,
    authenticateResult := Except.ok (some ⟨"a", "h", "t", "u", "c"⟩) }

/-- The same authentication environment with the record-file write
outcome replaced. -/
def withWriteOk (a : AuthEnv) (b : Bool) : AuthEnv :=
  { a with world := { a.world with writeOk := b } }

/-- The serialization world and `authenticate` outcome consumed by an
operation, for the operations able to write the account record file. -/
def opWorldAuth : Op → Option (World × AuthenticateAttempt)
  | Op.opRequireAuthentication a => some (a.world, a.authenticateResult)
  | Op.opEnsureAuthRecord w authRes => some (w, authRes)
  | _ => none

/-! ## Helper lemmas -/

theorem handleTokenError_attempts_ge (m : ManagerState) (cred : CredKind)
    (scopeKey : String) (oracle : Nat → TokenAttempt) (e : JsError) (used : Nat) :
    used ≤ (handleTokenError m cred scopeKey oracle e used).attempts := by
  unfold handleTokenError
  split
  · cases h : oracle used <;> simp
    case ok v => cases v <;> simp
  · simp

theorem acquireToken_attempts_ge_one (m : ManagerState) (cred : CredKind)
    (scopeKey : String) (oracle : Nat → TokenAttempt) :
    1 ≤ (acquireToken m cred scopeKey oracle).attempts := by
  unfold acquireToken
  cases h : oracle 0 with
  | ok v =>
      cases v with
      | none => exact handleTokenError_attempts_ge m cred scopeKey oracle _ 1
      | some tr => simp
  | error e => exact handleTokenError_attempts_ge m cred scopeKey oracle e 1

theorem cacheGet_cacheSet_self (c : List (String × CacheEntry)) (k : String)
    (v : CacheEntry) : cacheGet (cacheSet c k v) k = some v := by
  simp [cacheGet, cacheSet]

/-- On a cache miss, `getAccessToken` runs the `try` block. -/
theorem getAccessToken_miss (m : ManagerState) (cred : CredKind)
    (scopes : List String) (now : Int) (oracle : Nat → TokenAttempt)
    (hcred : m.credential = some cred)
    (hmiss : ∀ ce, cacheGet m.tokenCache (String.intercalate "," scopes) = some ce →
        ¬ now + 5 * 60 * 1000 < ce.expiresAt) :
    getAccessToken m scopes now oracle =
      acquireToken m cred (String.intercalate "," scopes) oracle := by
  unfold getAccessToken
  rw [hcred]
  cases hc : cacheGet m.tokenCache (String.intercalate "," scopes) with
  | some ce => simp only [hc, if_neg (hmiss ce hc)]
  | none => simp only [hc]

/-- Case analysis of `logout`: either an unlink failed — which requires
the corresponding file to exist — and the flag and singleton are as
before, or it succeeded and everything is cleared. -/
theorem logout_spec (lenv : LogoutEnv) (s : GlobalState) :
    ((logout lenv s).1.isSome = true
      ∧ (s.fs.authRecordFile.isSome = true ∨ s.fs.tokenCacheFile.isSome = true)
      ∧ (logout lenv s).2.isAuthenticated = s.isAuthenticated
      ∧ (logout lenv s).2.authManager = s.authManager)
    ∨ ((logout lenv s).1 = none
      ∧ (logout lenv s).2.authManager = none
      ∧ (logout lenv s).2.isAuthenticated = false
      ∧ (logout lenv s).2.fs.authRecordFile = none
      ∧ (logout lenv s).2.fs.tokenCacheFile = none) := by
  unfold logout
  split
  next h =>
    left
    simp only [Bool.and_eq_true] at h
    exact ⟨rfl, Or.inl h.1, rfl, rfl⟩
  next h =>
    dsimp only
    split
    next h2 =>
      left
      simp only [Bool.and_eq_true] at h2
      exact ⟨rfl, Or.inr h2.1, rfl, rfl⟩
    next h2 =>
      right
      split <;> simp [resetAuthManager]

/-! ## Claim theorems -/

/-- C2. For every cached token entry, the cache lookup inside
`getAccessToken` at time `now` returns a hit (the cached token string,
the manager unchanged, zero provider round trips) if and only if
`now + 5 minutes < expiresAt`; an entry whose expiry equals
`now + 5 minutes` exactly, or is sooner, is a miss and triggers at least
one provider round trip. -/
theorem c2_cache_hit_iff_skew (m : ManagerState) (cred : CredKind) (e : CacheEntry)
    (scopes : List String) (now : Int) (oracle : Nat → TokenAttempt)
    (hcred : m.credential = some cred)
    (hget : cacheGet m.tokenCache (String.intercalate "," scopes) = some e) :
    (getAccessToken m scopes now oracle =
        ⟨Except.ok e.token.token, m, 0⟩ ↔ now + 5 * 60 * 1000 < e.expiresAt)
    ∧ (¬ now + 5 * 60 * 1000 < e.expiresAt →
        1 ≤ (getAccessToken m scopes now oracle).attempts) := by
  unfold getAccessToken
  rw [hcred]
  simp only [hget]
  by_cases hlt : now + 5 * 60 * 1000 < e.expiresAt
  · simp only [if_pos hlt]
    exact ⟨⟨fun _ => hlt, fun _ => trivial⟩, fun h => absurd hlt h⟩
  · simp only [if_neg hlt]
    refine ⟨⟨fun heq => ?_, fun h => absurd h hlt⟩,
      fun _ => acquireToken_attempts_ge_one _ _ _ _⟩
    have h1 := acquireToken_attempts_ge_one m cred (String.intercalate "," scopes) oracle
    rw [heq] at h1
    exact absurd h1 (by simp)

/-- C2 witness. A concrete entry expiring exactly at `now + 5min` is
a miss (one round trip), while one millisecond more is a hit. -/
theorem c2_cache_hit_iff_skew_witness :
    let m : ManagerState :=
      { credential := some CredKind.interactiveBrowser
        config := loadConfigFromEnv sampleEnv
        tokenCache := [("s", ⟨⟨"tok", 300000⟩, 300000⟩)]
        authRecord := none }
    (getAccessToken m ["s"] 0 sampleOkOracle =
        ⟨Except.ok "tok", m, 0⟩ ↔ (0 : Int) + 5 * 60 * 1000 < 300000) ∧
    (¬ (0 : Int) + 5 * 60 * 1000 < 300000 →
        1 ≤ (getAccessToken m ["s"] 0 sampleOkOracle).attempts) :=
  c2_cache_hit_iff_skew _ CredKind.interactiveBrowser ⟨⟨"tok", 300000⟩, 300000⟩
    ["s"] 0 sampleOkOracle rfl (by decide)

/-- C8. Every token acquired by `getAccessToken` on a cache miss —
whether the scope key had no entry or a stale one (past the 5-minute
skew) that the acquisition overwrites — whose expiry lies more than 5
minutes in the future is stored in the cache, and an immediately
following `getAccessToken` call with the same scope list returns the
identical token string from the cache with zero further provider round
trips. -/
theorem c8_acquire_then_cached_round_trip (m : ManagerState) (cred : CredKind)
    (scopes : List String) (now : Int) (oracle oracle2 : Nat → TokenAttempt)
    (tr : AccessToken)
    (hcred : m.credential = some cred)
    (hmiss : ∀ ce, cacheGet m.tokenCache (String.intercalate "," scopes) = some ce →
        ¬ now + 5 * 60 * 1000 < ce.expiresAt)
    (h0 : oracle 0 = Except.ok (some tr))
    (hexp : now + 5 * 60 * 1000 < tr.expiresOnTimestamp) :
    (getAccessToken m scopes now oracle).result = Except.ok tr.token ∧
    (getAccessToken m scopes now oracle).attempts = 1 ∧
    getAccessToken (getAccessToken m scopes now oracle).state scopes now oracle2 =
      ⟨Except.ok tr.token, (getAccessToken m scopes now oracle).state, 0⟩ := by
  have hred : getAccessToken m scopes now oracle =
      acquireToken m cred (String.intercalate "," scopes) oracle :=
    getAccessToken_miss m cred scopes now oracle hcred hmiss
  have hacq : acquireToken m cred (String.intercalate "," scopes) oracle =
      ⟨Except.ok tr.token,
       { m with tokenCache :=
          (cacheSet m.tokenCache (String.intercalate "," scopes)
            ⟨tr, tr.expiresOnTimestamp⟩) },
       1⟩ := by
    unfold acquireToken
    rw [h0]
  rw [hred, hacq]
  refine ⟨rfl, rfl, ?_⟩
  unfold getAccessToken
  simp only [hcred, cacheGet_cacheSet_self]
  rw [if_pos hexp]

/-- C8 witness. Concrete round trip in the stale-entry case: at time 0
the cached entry for the scope key expired at 200000 ms (within the
5-minute skew), the acquisition overwrites it with `sampleToken`, and
the follow-up call reads the new token back from the cache. -/
theorem c8_acquire_then_cached_round_trip_witness :
    let m : ManagerState :=
      { credential := some CredKind.interactiveBrowser
        config := loadConfigFromEnv sampleEnv
        tokenCache := [("s", ⟨⟨"T0", 200000⟩, 200000⟩)]
        authRecord := none }
    (getAccessToken m ["s"] 0 sampleOkOracle).result =
      Except.ok sampleToken.token ∧
    (getAccessToken m ["s"] 0 sampleOkOracle).attempts = 1 ∧
    getAccessToken (getAccessToken m ["s"] 0 sampleOkOracle).state
        ["s"] 0 sampleOkOracle =
      ⟨Except.ok sampleToken.token,
       (getAccessToken m ["s"] 0 sampleOkOracle).state, 0⟩ :=
  c8_acquire_then_cached_round_trip _ CredKind.interactiveBrowser
    ["s"] 0 sampleOkOracle sampleOkOracle sampleToken rfl
    (fun ce hce => by
      have h : (some (⟨⟨"T0", 200000⟩, 200000⟩ : CacheEntry)) = some ce := by
        rw [← hce]
        decide
      injection h with h'
      rw [← h']
      decide)
    rfl (by decide)

/-- C1. On a cache miss with an `InteractiveBrowserCredential`, when
the first provider round trip throws an error classified as a
headless-environment error, exactly one DeviceCode retry of the same
scopes is attempted (two round trips in total, never a third): on retry
success its token is returned and cached, on retry failure an
`AuthenticationError` carrying both the original and the fallback error
message is thrown. -/
theorem c1_devicecode_fallback_once (m : ManagerState) (scopes : List String)
    (now : Int) (oracle : Nat → TokenAttempt) (e : JsError)
    (hcred : m.credential = some CredKind.interactiveBrowser)
    (hmiss : ∀ ce, cacheGet m.tokenCache (String.intercalate "," scopes) = some ce →
        ¬ now + 5 * 60 * 1000 < ce.expiresAt)
    (h0 : oracle 0 = Except.error e)
    (hfb : shouldFallbackToDeviceCode e = true) :
    (getAccessToken m scopes now oracle).attempts = 2
    ∧ (getAccessToken m scopes now oracle).state.credential = some CredKind.deviceCode
    ∧ (∀ tr, oracle 1 = Except.ok (some tr) →
        (getAccessToken m scopes now oracle).result = Except.ok tr.token ∧
        cacheGet (getAccessToken m scopes now oracle).state.tokenCache
            (String.intercalate "," scopes) = some ⟨tr, tr.expiresOnTimestamp⟩)
    ∧ (∀ e2, oracle 1 = Except.error e2 →
        ∃ err, (getAccessToken m scopes now oracle).result = Except.error err ∧
          err.name = "AuthenticationError" ∧
          ("originalError", e.message) ∈ err.details ∧
          ("fallbackError", e2.message) ∈ err.details) := by
  have hred : getAccessToken m scopes now oracle =
      acquireToken m CredKind.interactiveBrowser (String.intercalate "," scopes) oracle :=
    getAccessToken_miss m CredKind.interactiveBrowser scopes now oracle hcred hmiss
  have hacq : acquireToken m CredKind.interactiveBrowser
      (String.intercalate "," scopes) oracle =
      handleTokenError m CredKind.interactiveBrowser
        (String.intercalate "," scopes) oracle e 1 := by
    unfold acquireToken
    rw [h0]
  rw [hred, hacq]
  unfold handleTokenError
  simp only [hfb, beq_self_eq_true, Bool.true_and, if_pos]
  cases h1 : oracle 1 with
  | ok v =>
      cases v with
      | none =>
          refine ⟨rfl, rfl, fun tr htr => absurd htr (by simp),
            fun e2 he2 => absurd he2 (by simp)⟩
      | some tr =>
          refine ⟨rfl, rfl, fun tr' htr => ?_, fun e2 he2 => absurd he2 (by simp)⟩
          have heq : tr = tr' := by simpa using htr
          subst heq
          exact ⟨rfl, cacheGet_cacheSet_self _ _ _⟩
  | error e2 =>
      refine ⟨rfl, rfl, fun tr htr => absurd htr (by simp), fun e2' he2 => ?_⟩
      have heq : e2 = e2' := by simpa using he2
      subst heq
      exact ⟨_, rfl, rfl, by simp [mkAuthenticationError], by simp [mkAuthenticationError]⟩

/-- C1 witness. Concrete fallback: the browser flow throws
"Unable to open a browser", the DeviceCode retry returns `sampleToken`. -/
theorem c1_devicecode_fallback_once_witness :
    (getAccessToken sampleManager ["s"] 0 sampleFallbackOracle).attempts = 2 ∧
    (getAccessToken sampleManager ["s"] 0 sampleFallbackOracle).state.credential =
      some CredKind.deviceCode ∧
    (∀ tr, sampleFallbackOracle 1 = Except.ok (some tr) →
        (getAccessToken sampleManager ["s"] 0 sampleFallbackOracle).result =
          Except.ok tr.token ∧
        cacheGet (getAccessToken sampleManager ["s"] 0 sampleFallbackOracle).state.tokenCache
            (String.intercalate "," ["s"]) = some ⟨tr, tr.expiresOnTimestamp⟩) ∧
    (∀ e2, sampleFallbackOracle 1 = Except.error e2 →
        ∃ err, (getAccessToken sampleManager ["s"] 0 sampleFallbackOracle).result =
            Except.error err ∧
          err.name = "AuthenticationError" ∧
          ("originalError", "Unable to open a browser") ∈ err.details ∧
          ("fallbackError", e2.message) ∈ err.details) :=
  c1_devicecode_fallback_once sampleManager ["s"] 0 sampleFallbackOracle
    ⟨"Error", "Unable to open a browser"⟩ rfl
    (fun ce hce => by simp [sampleManager, cacheGet] at hce) rfl (by decide)

/-- C4 counterexample. The claim says an unconfigured manager makes
`requireAuthentication` throw a `ConfigurationError` to its caller.  On a
concrete unconfigured state the error reaching the caller is an
`AuthenticationError` (`code AUTHENTICATION_ERROR`): the internally
thrown `ConfigurationError` is caught by the surrounding `catch` and
re-wrapped. -/
theorem c4_counterexample_wrapped_not_configuration :
    ∃ err, (requireAuthentication sampleAuthEnv sampleUnconfiguredState).err = some err ∧
      err.name = "AuthenticationError" ∧ err.code = "AUTHENTICATION_ERROR" ∧
      err.name ≠ "ConfigurationError" ∧ err.code ≠ "CONFIGURATION_ERROR" := by
  refine ⟨_, rfl, rfl, rfl, by decide, by decide⟩

/-- C4 (amended). For every state in which the singleton manager is
not configured (tenant or client id empty) and the flag is down,
`requireAuthentication` fails fast — zero provider round trips, the flag
stays false — by throwing an `AuthenticationError` that wraps the
configuration failure message (the `ConfigurationError` raised internally
is caught and re-wrapped by the catch block of the function). -/
theorem c4_unconfigured_fails_fast_with_wrapped_error (a : AuthEnv) (s : GlobalState)
    (m : ManagerState)
    (hflag : s.isAuthenticated = false)
    (hmgr : s.authManager = some m)
    (hcfg : isConfigured m.config = false) :
    (requireAuthentication a s).err =
      some (wrapAuthFailure
        "Authentication not configured. Missing AZURE_TENANT_ID or AZURE_CLIENT_ID.")
    ∧ (requireAuthentication a s).attempts = 0
    ∧ (requireAuthentication a s).state.isAuthenticated = false
    ∧ (wrapAuthFailure
        "Authentication not configured. Missing AZURE_TENANT_ID or AZURE_CLIENT_ID.").name =
      "AuthenticationError" := by
  unfold requireAuthentication getAuthManager
  simp [hflag, hmgr, hcfg, wrapAuthFailure, mkAuthenticationError]

/-- C4 witness. The amended statement at the concrete unconfigured
state. -/
theorem c4_unconfigured_fails_fast_with_wrapped_error_witness :
    (requireAuthentication sampleAuthEnv sampleUnconfiguredState).err =
      some (wrapAuthFailure
        "Authentication not configured. Missing AZURE_TENANT_ID or AZURE_CLIENT_ID.")
    ∧ (requireAuthentication sampleAuthEnv sampleUnconfiguredState).attempts = 0
    ∧ (requireAuthentication sampleAuthEnv sampleUnconfiguredState).state.isAuthenticated = false
    ∧ (wrapAuthFailure
        "Authentication not configured. Missing AZURE_TENANT_ID or AZURE_CLIENT_ID.").name =
      "AuthenticationError" :=
  c4_unconfigured_fails_fast_with_wrapped_error sampleAuthEnv sampleUnconfiguredState
    (mkManager (some emptyConfig) sampleEnv) rfl rfl (by decide)

/-- C6. `logout` on a state with no account record file and no
persisted cache blob (in particular a never-authenticated process)
completes without throwing — file absence is not an error, whatever the
unlink oracle says — and leaves the flag false. -/
theorem c6_logout_without_prior_auth (lenv : LogoutEnv) (s : GlobalState)
    (h1 : s.fs.authRecordFile = none) (h2 : s.fs.tokenCacheFile = none) :
    (logout lenv s).1 = none ∧ (logout lenv s).2.isAuthenticated = false := by
  rcases logout_spec lenv s with ⟨_, hfile, _, _⟩ | ⟨hok, _, hflag, _, _⟩
  · rcases hfile with hf | hf
    · rw [h1] at hf; exact absurd hf (by simp)
    · rw [h2] at hf; exact absurd hf (by simp)
  · exact ⟨hok, hflag⟩

/-- C6 witness. Logout on the fresh state with failing unlink
oracles. -/
theorem c6_logout_without_prior_auth_witness :
    (logout ⟨false, false⟩ (initState ⟨none, none⟩)).1 = none ∧
    (logout ⟨false, false⟩ (initState ⟨none, none⟩)).2.isAuthenticated = false :=
  c6_logout_without_prior_auth ⟨false, false⟩ (initState ⟨none, none⟩) rfl rfl

/-- C10. `getAuthManager(c)` returns the existing singleton unchanged
for every configuration argument `c` (which is silently ignored), and
constructs a fresh manager (reading the configuration argument or the
environment) only when no singleton exists; `resetAuthManager` and a
successful `logout` are the operations that clear the singleton. -/
theorem c10_singleton_config_ignored (cfg : Option AzureConfig) (env : Env)
    (s : GlobalState) (lenv : LogoutEnv) :
    (∀ m, s.authManager = some m → getAuthManager cfg env s = (m, s))
    ∧ (s.authManager = none →
        getAuthManager cfg env s =
          (mkManager cfg env, { s with authManager := some (mkManager cfg env) }))
    ∧ (resetAuthManager s).authManager = none
    ∧ ((logout lenv s).1 = none → (logout lenv s).2.authManager = none) := by
  refine ⟨fun m hm => ?_, fun hm => ?_, rfl, fun hok => ?_⟩
  · unfold getAuthManager; rw [hm]
  · unfold getAuthManager; rw [hm]
  · rcases logout_spec lenv s with ⟨hsome, _, _, _⟩ | ⟨_, hmgr, _, _, _⟩
    · rw [hok] at hsome; exact absurd hsome (by simp)
    · exact hmgr

/-- C10 witness. The existing singleton (an unconfigured manager) is
returned unchanged even when a different explicit configuration is
passed. -/
theorem c10_singleton_config_ignored_witness :
    getAuthManager (some (loadConfigFromEnv sampleEnv)) sampleEnv
        sampleUnconfiguredState =
      (mkManager (some emptyConfig) sampleEnv, sampleUnconfiguredState) :=
  (c10_singleton_config_ignored (some (loadConfigFromEnv sampleEnv)) sampleEnv
    sampleUnconfiguredState ⟨true, true⟩).1 (mkManager (some emptyConfig) sampleEnv) rfl

theorem truthy_jsOr (v : Option String) (d : String) (hd : d ≠ "") :
    truthy (some (jsOr v d)) = true := by
  unfold truthy jsOr
  cases v with
  | none => simpa [bne_iff_ne] using hd
  | some s =>
      by_cases h : s == ""
      · simpa [h, bne_iff_ne] using hd
      · simpa [h, bne_iff_ne] using fun heq => h (by simp [heq])

theorem isConfigured_loadConfigFromEnv (env : Env) :
    isConfigured (loadConfigFromEnv env) = true := by
  unfold isConfigured loadConfigFromEnv
  dsimp only
  rw [truthy_jsOr _ _ (by decide), truthy_jsOr _ _ (by decide)]
  rfl

theorem loadAuthRecord_preserves (w : World) (fs : Fs) (m : ManagerState) :
    (loadAuthRecord w fs m).2.credential = m.credential
    ∧ (loadAuthRecord w fs m).2.config = m.config
    ∧ (loadAuthRecord w fs m).2.tokenCache = m.tokenCache := by
  unfold loadAuthRecord
  split
  · exact ⟨rfl, rfl, rfl⟩
  · split
    · split <;> exact ⟨rfl, rfl, rfl⟩
    · exact ⟨rfl, rfl, rfl⟩

theorem initManager_ok (w : World) (fs : Fs) (m : ManagerState)
    (hcfg : isConfigured m.config = true) :
    ∃ cred, initManager w fs m =
      Except.ok { (loadAuthRecord w fs m).2 with credential := some cred } := by
  unfold initManager
  unfold isConfigured at hcfg
  rw [hcfg]
  exact ⟨_, rfl⟩

theorem getAccessToken_fresh_attempts (m : ManagerState) (cred : CredKind)
    (scopes : List String) (now : Int) (oracle : Nat → TokenAttempt)
    (hcred : m.credential = some cred)
    (hmiss : cacheGet m.tokenCache (String.intercalate "," scopes) = none) :
    1 ≤ (getAccessToken m scopes now oracle).attempts := by
  rw [getAccessToken_miss m cred scopes now oracle hcred
    (fun ce hce => by rw [hmiss] at hce; cases hce)]
  exact acquireToken_attempts_ge_one m cred (String.intercalate "," scopes) oracle

/-- On a state with no singleton and the flag down,
`requireAuthentication` performs at least one provider round trip (the
freshly constructed manager has an empty cache and its
environment-derived configuration is always configured). -/
theorem requireAuthentication_fresh (a : AuthEnv) (s : GlobalState)
    (hmgr : s.authManager = none) (hflag : s.isAuthenticated = false) :
    1 ≤ (requireAuthentication a s).attempts := by
  unfold requireAuthentication getAuthManager
  rw [hflag, hmgr]
  simp only [Bool.false_eq_true, if_false]
  have hc : isConfigured (mkManager none a.env).config = true := by
    simpa [mkManager] using isConfigured_loadConfigFromEnv a.env
  rw [hc]
  simp only [Bool.not_true, Bool.false_eq_true, if_false]
  obtain ⟨cred, hinit⟩ := initManager_ok a.world
    ({ s with authManager := some (mkManager none a.env) }).fs (mkManager none a.env) hc
  rw [hinit]
  dsimp only
  have hmiss : cacheGet ({ (loadAuthRecord a.world
      ({ s with authManager := some (mkManager none a.env) }).fs
      (mkManager none a.env)).2 with credential := some cred } : ManagerState).tokenCache
      (String.intercalate "," REQUIRED_SCOPES) = none := by
    have hp := (loadAuthRecord_preserves a.world
      ({ s with authManager := some (mkManager none a.env) }).fs
      (mkManager none a.env)).2.2
    show cacheGet (loadAuthRecord a.world _ (mkManager none a.env)).2.tokenCache _ = none
    rw [hp]
    rfl
  have h1 := getAccessToken_fresh_attempts _ cred REQUIRED_SCOPES a.now a.tokenOracle
    rfl hmiss
  split
  · exact h1
  · split
    · exact h1
    · split <;> exact h1

/-- C5. After a `logout()` call that returns normally: the singleton is
discarded, the flag is false, the account record file and the persisted
cache blob are absent, any manager obtained afterwards is freshly
constructed with an empty cache, and a subsequent `requireAuthentication`
re-runs the full acquisition path (at least one provider round trip). -/
theorem c5_logout_resets_everything (lenv : LogoutEnv) (s : GlobalState)
    (hok : (logout lenv s).1 = none) :
    (logout lenv s).2.authManager = none
    ∧ (logout lenv s).2.isAuthenticated = false
    ∧ (logout lenv s).2.fs.authRecordFile = none
    ∧ (logout lenv s).2.fs.tokenCacheFile = none
    ∧ (∀ cfg env, (getAuthManager cfg env (logout lenv s).2).1.tokenCache = [])
    ∧ (∀ a, 1 ≤ (requireAuthentication a (logout lenv s).2).attempts) := by
  rcases logout_spec lenv s with ⟨hsome, _, _, _⟩ | ⟨_, h1, h2, h3, h4⟩
  · rw [hok] at hsome; exact absurd hsome (by simp)
  · refine ⟨h1, h2, h3, h4, fun cfg env => ?_, fun a => ?_⟩
    · unfold getAuthManager
      rw [h1]
      rfl
    · exact requireAuthentication_fresh a _ h1 h2

/-- C5 witness. Logout of the fully authenticated populated state. -/
theorem c5_logout_resets_everything_witness :
    (logout ⟨true, true⟩ samplePopulatedState).1 = none
    ∧ (logout ⟨true, true⟩ samplePopulatedState).2.authManager = none
    ∧ (logout ⟨true, true⟩ samplePopulatedState).2.isAuthenticated = false
    ∧ (logout ⟨true, true⟩ samplePopulatedState).2.fs.authRecordFile = none
    ∧ (logout ⟨true, true⟩ samplePopulatedState).2.fs.tokenCacheFile = none
    ∧ (getAuthManager none sampleEnv
        (logout ⟨true, true⟩ samplePopulatedState).2).1.tokenCache = []
    ∧ 1 ≤ (requireAuthentication sampleAuthEnv
        (logout ⟨true, true⟩ samplePopulatedState).2).attempts := by
  have h := c5_logout_resets_everything ⟨true, true⟩ samplePopulatedState rfl
  exact ⟨rfl, h.1, h.2.1, h.2.2.1, h.2.2.2.1, h.2.2.2.2.1 none sampleEnv,
    h.2.2.2.2.2 sampleAuthEnv⟩

theorem loadAuthRecord_writeOk (w : World) (b : Bool) (fs : Fs) (m : ManagerState) :
    loadAuthRecord { w with writeOk := b } fs m = loadAuthRecord w fs m := by
  unfold loadAuthRecord
  rfl

theorem initManager_writeOk (w : World) (b : Bool) (fs : Fs) (m : ManagerState) :
    initManager { w with writeOk := b } fs m = initManager w fs m := by
  unfold initManager
  rw [loadAuthRecord_writeOk]

theorem ensureAuthRecord_err_writeOk (w : World) (b : Bool)
    (authRes : AuthenticateAttempt) (fs : Fs) (m : ManagerState) :
    (ensureAuthRecord { w with writeOk := b } authRes fs m).1 =
      (ensureAuthRecord w authRes fs m).1 := by
  unfold ensureAuthRecord
  split
  · rfl
  · split
    · rfl
    · match authRes with
      | Except.error _ => rfl
      | Except.ok none => rfl
      | Except.ok (some r) => rfl

/-- The error and round-trip count of `requireAuthentication` do not
depend on whether the record-file write succeeds: a save failure is
swallowed. -/
theorem requireAuthentication_err_writeOk (a : AuthEnv) (b : Bool) (s : GlobalState) :
    (requireAuthentication (withWriteOk a b) s).err = (requireAuthentication a s).err
    ∧ (requireAuthentication (withWriteOk a b) s).attempts =
        (requireAuthentication a s).attempts := by
  unfold requireAuthentication withWriteOk
  by_cases hflag : s.isAuthenticated
  · simp only [hflag, if_true]
    constructor <;> trivial
  · simp only [hflag, Bool.false_eq_true, if_false]
    by_cases hc : isConfigured (getAuthManager none a.env s).1.config
    · simp only [hc, Bool.not_true, Bool.false_eq_true, if_false]
      rw [initManager_writeOk]
      cases hi : initManager a.world (getAuthManager none a.env s).2.fs
          (getAuthManager none a.env s).1 with
      | error e => constructor <;> trivial
      | ok m2 =>
          dsimp only
          cases ho : (getAccessToken m2 REQUIRED_SCOPES a.now a.tokenOracle).result with
          | error err => constructor <;> trivial
          | ok t =>
              dsimp only
              by_cases hr : (getAccessToken m2 REQUIRED_SCOPES a.now a.tokenOracle).state.authRecord.isSome
              · simp only [hr, if_true]
                constructor <;> trivial
              · simp only [hr, Bool.false_eq_true, if_false]
                have he := ensureAuthRecord_err_writeOk a.world b a.authenticateResult
                  (setManager (getAuthManager none a.env s).2
                    (getAccessToken m2 REQUIRED_SCOPES a.now a.tokenOracle).state).fs
                  (getAccessToken m2 REQUIRED_SCOPES a.now a.tokenOracle).state
                rcases hE : ensureAuthRecord a.world a.authenticateResult
                    (setManager (getAuthManager none a.env s).2
                      (getAccessToken m2 REQUIRED_SCOPES a.now a.tokenOracle).state).fs
                    (getAccessToken m2 REQUIRED_SCOPES a.now a.tokenOracle).state
                  with ⟨e1, fs1, m1⟩
                rcases hE2 : ensureAuthRecord { a.world with writeOk := b }
                    a.authenticateResult
                    (setManager (getAuthManager none a.env s).2
                      (getAccessToken m2 REQUIRED_SCOPES a.now a.tokenOracle).state).fs
                    (getAccessToken m2 REQUIRED_SCOPES a.now a.tokenOracle).state
                  with ⟨e2, fs2, m2'⟩
                rw [hE, hE2] at he
                dsimp only at he
                cases he
                cases e1 <;> constructor <;> trivial
    · simp only [hc]
      constructor <;> trivial

/-- C7. (a) Loading the account record never throws to the caller
and yields `none` whenever the file is absent, unreadable, or malformed,
leaving the manager unchanged; (b) a failed save is swallowed (file and
manager unchanged) and the outcome of `requireAuthentication` — error and
round trips — is the same whether or not the record-file write succeeds,
so a save failure never aborts an otherwise-successful authentication. -/
theorem c7_record_load_save_nonfatal (w : World) (fs : Fs) (m : ManagerState)
    (r : AuthenticationRecord) (a : AuthEnv) (s : GlobalState) (b : Bool) :
    (fs.authRecordFile = none → loadAuthRecord w fs m = (none, m))
    ∧ (w.readOk = false → loadAuthRecord w fs m = (none, m))
    ∧ (∀ data, fs.authRecordFile = some data → w.deserialize data = none →
        loadAuthRecord w fs m = (none, m))
    ∧ (w.writeOk = false → saveAuthRecord w fs m r = (fs, m))
    ∧ (requireAuthentication (withWriteOk a b) s).err = (requireAuthentication a s).err := by
  refine ⟨fun h => ?_, fun h => ?_, fun data hd hparse => ?_, fun h => ?_,
    (requireAuthentication_err_writeOk a b s).1⟩
  · unfold loadAuthRecord; rw [h]
  · unfold loadAuthRecord
    cases hf : fs.authRecordFile with
    | none => rfl
    | some data => rw [h]; rfl
  · unfold loadAuthRecord
    rw [hd]
    cases hr : w.readOk with
    | false => rfl
    | true => simp [hparse]
  · unfold saveAuthRecord; rw [h]; rfl

/-- C7 witness. The sample world deserializes nothing: loading the
concrete record file yields `none` without touching the manager, and
`requireAuthentication` on the populated file system succeeds identically
with the write forced to fail. -/
theorem c7_record_load_save_nonfatal_witness :
    (Fs.mk (some "garbage") none).authRecordFile = some "garbage"
    ∧ sampleWorld.deserialize "garbage" = none
    ∧ loadAuthRecord sampleWorld ⟨some "garbage", none⟩ sampleManager =
        (none, sampleManager)
    ∧ (sampleWorld.writeOk = false →
        saveAuthRecord sampleWorld ⟨some "garbage", none⟩ sampleManager ⟨"a", "h", "t", "u", "c"⟩ =
          (⟨some "garbage", none⟩, sampleManager))
    ∧ (requireAuthentication (withWriteOk sampleAuthEnv false)
        (initState ⟨some "garbage", none⟩)).err =
      (requireAuthentication sampleAuthEnv (initState ⟨some "garbage", none⟩)).err := by
  have h := c7_record_load_save_nonfatal sampleWorld ⟨some "garbage", none⟩
    sampleManager ⟨"a", "h", "t", "u", "c"⟩ sampleAuthEnv
    (initState ⟨some "garbage", none⟩) false
  exact ⟨rfl, rfl, h.2.2.1 "garbage" rfl rfl, h.2.2.2.1, h.2.2.2.2⟩

theorem getAuthManager_flag (cfg : Option AzureConfig) (env : Env) (s : GlobalState) :
    (getAuthManager cfg env s).2.isAuthenticated = s.isAuthenticated := by
  unfold getAuthManager
  cases h : s.authManager <;> rfl

theorem getAuthManager_fs (cfg : Option AzureConfig) (env : Env) (s : GlobalState) :
    (getAuthManager cfg env s).2.fs = s.fs := by
  unfold getAuthManager
  cases h : s.authManager <;> rfl

theorem onManager_flag (s : GlobalState) (f : ManagerState → ManagerState) :
    (onManager s f).isAuthenticated = s.isAuthenticated := by
  unfold onManager
  cases h : s.authManager <;> rfl

theorem onManager_fs (s : GlobalState) (f : ManagerState → ManagerState) :
    (onManager s f).fs = s.fs := by
  unfold onManager
  cases h : s.authManager <;> rfl

/-- The fast path: with the flag up, `requireAuthentication` returns
immediately and changes nothing. -/
theorem requireAuthentication_fastpath (a : AuthEnv) (s : GlobalState)
    (hflag : s.isAuthenticated = true) :
    requireAuthentication a s = ⟨none, s, 0⟩ := by
  unfold requireAuthentication
  rw [hflag]
  rfl

/-- With the flag down, `requireAuthentication` either succeeds and
raises the flag, or throws and leaves the flag down. -/
theorem requireAuthentication_spec (a : AuthEnv) (s : GlobalState)
    (hflag : s.isAuthenticated = false) :
    ((requireAuthentication a s).err = none
      ∧ (requireAuthentication a s).state.isAuthenticated = true)
    ∨ ((requireAuthentication a s).err.isSome = true
      ∧ (requireAuthentication a s).state.isAuthenticated = false) := by
  unfold requireAuthentication
  rw [hflag]
  simp only [Bool.false_eq_true, if_false]
  by_cases hc : isConfigured (getAuthManager none a.env s).1.config
  · simp only [hc, Bool.not_true, Bool.false_eq_true, if_false]
    cases hi : initManager a.world (getAuthManager none a.env s).2.fs
        (getAuthManager none a.env s).1 with
    | error e =>
        right
        refine ⟨rfl, ?_⟩
        rw [getAuthManager_flag]
        exact hflag
    | ok m2 =>
        dsimp only
        cases ho : (getAccessToken m2 REQUIRED_SCOPES a.now a.tokenOracle).result with
        | error err =>
            right
            refine ⟨rfl, ?_⟩
            dsimp only [setManager]
            rw [getAuthManager_flag]
            exact hflag
        | ok t =>
            dsimp only
            by_cases hr : (getAccessToken m2 REQUIRED_SCOPES
                a.now a.tokenOracle).state.authRecord.isSome
            · simp only [hr, if_true]
              left
              constructor <;> trivial
            · simp only [hr, Bool.false_eq_true, if_false]
              rcases hE : ensureAuthRecord a.world a.authenticateResult
                  (setManager (getAuthManager none a.env s).2
                    (getAccessToken m2 REQUIRED_SCOPES a.now a.tokenOracle).state).fs
                  (getAccessToken m2 REQUIRED_SCOPES a.now a.tokenOracle).state
                with ⟨e1, fs1, m3⟩
              cases e1 with
              | none =>
                  left
                  constructor <;> trivial
              | some err =>
                  right
                  refine ⟨rfl, ?_⟩
                  dsimp only [setManager]
                  rw [getAuthManager_flag]
                  exact hflag
  · simp only [hc, Bool.not_false]
    simp only [if_true]
    right
    refine ⟨rfl, ?_⟩
    rw [getAuthManager_flag]
    exact hflag

theorem ensureStep_flag (w : World) (r : AuthenticateAttempt) (s : GlobalState) :
    (step (Op.opEnsureAuthRecord w r) s).isAuthenticated = s.isAuthenticated := by
  unfold step
  cases h : s.authManager <;> rfl

/-- C3. The process-wide ready flag is false at process start; a step
that raises it from false to true can only be a `requireAuthentication`
call that completed without throwing (one that throws leaves it false);
and a step that lowers it from true to false can only be
`resetAuthManager` or `logout` — no other operation flips the flag in
either direction. -/
theorem c3_ready_flag_lifecycle (fs0 : Fs) (s : GlobalState) (op : Op) :
    (initState fs0).isAuthenticated = false
    ∧ (s.isAuthenticated = false → (step op s).isAuthenticated = true →
        ∃ a, op = Op.opRequireAuthentication a ∧ (requireAuthentication a s).err = none)
    ∧ (s.isAuthenticated = true → (step op s).isAuthenticated = false →
        op = Op.opResetAuthManager ∨ ∃ lenv, op = Op.opLogout lenv) := by
  refine ⟨rfl, ?_, ?_⟩
  · intro h1 h2
    cases op with
    | opGetAuthManager cfg env =>
        simp only [step] at h2
        rw [getAuthManager_flag, h1] at h2
        exact Bool.noConfusion h2
    | opResetAuthManager =>
        simp only [step, resetAuthManager] at h2
        exact Bool.noConfusion h2
    | opIsAuthenticationReady =>
        simp only [step] at h2
        rw [h1] at h2
        exact Bool.noConfusion h2
    | opLogout lenv =>
        simp only [step] at h2
        rcases logout_spec lenv s with ⟨_, _, hfl, _⟩ | ⟨_, _, hfl, _, _⟩ <;>
          rw [hfl] at h2
        · rw [h1] at h2
          exact Bool.noConfusion h2
        · exact Bool.noConfusion h2
    | opRequireAuthentication a =>
        simp only [step] at h2
        rcases requireAuthentication_spec a s h1 with ⟨he, _⟩ | ⟨_, hf⟩
        · exact ⟨a, rfl, he⟩
        · rw [hf] at h2
          exact Bool.noConfusion h2
    | opInitialize w =>
        simp only [step] at h2
        rw [onManager_flag, h1] at h2
        exact Bool.noConfusion h2
    | opGetAccessToken scopes now oracle =>
        simp only [step] at h2
        rw [onManager_flag, h1] at h2
        exact Bool.noConfusion h2
    | opClearCache =>
        simp only [step] at h2
        rw [onManager_flag, h1] at h2
        exact Bool.noConfusion h2
    | opGetAuthStatus =>
        simp only [step] at h2
        rw [h1] at h2
        exact Bool.noConfusion h2
    | opGetConfig =>
        simp only [step] at h2
        rw [h1] at h2
        exact Bool.noConfusion h2
    | opEnsureAuthRecord w r =>
        rw [ensureStep_flag, h1] at h2
        exact Bool.noConfusion h2
  · intro h1 h2
    cases op with
    | opGetAuthManager cfg env =>
        simp only [step] at h2
        rw [getAuthManager_flag, h1] at h2
        exact Bool.noConfusion h2
    | opResetAuthManager => exact Or.inl rfl
    | opIsAuthenticationReady =>
        simp only [step] at h2
        rw [h1] at h2
        exact Bool.noConfusion h2
    | opLogout lenv => exact Or.inr ⟨lenv, rfl⟩
    | opRequireAuthentication a =>
        simp only [step] at h2
        rw [requireAuthentication_fastpath a s h1] at h2
        dsimp only at h2
        rw [h1] at h2
        exact Bool.noConfusion h2
    | opInitialize w =>
        simp only [step] at h2
        rw [onManager_flag, h1] at h2
        exact Bool.noConfusion h2
    | opGetAccessToken scopes now oracle =>
        simp only [step] at h2
        rw [onManager_flag, h1] at h2
        exact Bool.noConfusion h2
    | opClearCache =>
        simp only [step] at h2
        rw [onManager_flag, h1] at h2
        exact Bool.noConfusion h2
    | opGetAuthStatus =>
        simp only [step] at h2
        rw [h1] at h2
        exact Bool.noConfusion h2
    | opGetConfig =>
        simp only [step] at h2
        rw [h1] at h2
        exact Bool.noConfusion h2
    | opEnsureAuthRecord w r =>
        rw [ensureStep_flag, h1] at h2
        exact Bool.noConfusion h2

/-- C3 witness. The flag starts false; on the authenticated populated
state, the step that lowers the flag is `resetAuthManager`. -/
theorem c3_ready_flag_lifecycle_witness :
    (initState ⟨none, none⟩).isAuthenticated = false
    ∧ (Op.opResetAuthManager = Op.opResetAuthManager ∨
        ∃ lenv, Op.opResetAuthManager = Op.opLogout lenv) :=
  ⟨(c3_ready_flag_lifecycle ⟨none, none⟩ samplePopulatedState Op.opResetAuthManager).1,
   (c3_ready_flag_lifecycle ⟨none, none⟩ samplePopulatedState
      Op.opResetAuthManager).2.2 rfl rfl⟩

theorem ensureAuthRecord_file (w : World) (r : AuthenticateAttempt) (fs : Fs)
    (m : ManagerState) :
    (ensureAuthRecord w r fs m).2.1.authRecordFile = fs.authRecordFile
    ∨ ∃ rec, r = Except.ok (some rec) ∧
        (ensureAuthRecord w r fs m).2.1.authRecordFile = some (w.serialize rec) := by
  unfold ensureAuthRecord
  split
  · left; rfl
  · split
    · left; rfl
    · cases r with
      | error e => left; rfl
      | ok v =>
          cases v with
          | none => left; rfl
          | some rec =>
              unfold saveAuthRecord
              by_cases hw : w.writeOk
              · right
                refine ⟨rec, rfl, ?_⟩
                simp only [hw, if_true]
              · left
                simp only [hw, Bool.false_eq_true, if_false]

theorem logout_file (lenv : LogoutEnv) (s : GlobalState) :
    (logout lenv s).2.fs.authRecordFile = s.fs.authRecordFile
    ∨ (logout lenv s).2.fs.authRecordFile = none := by
  unfold logout
  split
  · left; rfl
  · dsimp only
    split
    · right; rfl
    · split <;> (right; rfl)

theorem requireAuthentication_file (a : AuthEnv) (s : GlobalState) :
    (requireAuthentication a s).state.fs.authRecordFile = s.fs.authRecordFile
    ∨ ∃ rec, a.authenticateResult = Except.ok (some rec) ∧
        (requireAuthentication a s).state.fs.authRecordFile =
          some (a.world.serialize rec) := by
  unfold requireAuthentication
  by_cases hflag : s.isAuthenticated
  · simp only [hflag, if_true]
    left; trivial
  · simp only [hflag, Bool.false_eq_true, if_false]
    by_cases hc : isConfigured (getAuthManager none a.env s).1.config
    · simp only [hc, Bool.not_true, Bool.false_eq_true, if_false]
      cases hi : initManager a.world (getAuthManager none a.env s).2.fs
          (getAuthManager none a.env s).1 with
      | error e =>
          left
          dsimp only
          rw [getAuthManager_fs]
      | ok m2 =>
          dsimp only
          cases ho : (getAccessToken m2 REQUIRED_SCOPES a.now a.tokenOracle).result with
          | error err =>
              left
              dsimp only [setManager]
              rw [getAuthManager_fs]
          | ok t =>
              dsimp only
              by_cases hr : (getAccessToken m2 REQUIRED_SCOPES
                  a.now a.tokenOracle).state.authRecord.isSome
              · simp only [hr, if_true]
                left
                dsimp only [setManager]
                rw [getAuthManager_fs]
              · simp only [hr, Bool.false_eq_true, if_false]
                have hfile := ensureAuthRecord_file a.world a.authenticateResult
                  (setManager (getAuthManager none a.env s).2
                    (getAccessToken m2 REQUIRED_SCOPES a.now a.tokenOracle).state).fs
                  (getAccessToken m2 REQUIRED_SCOPES a.now a.tokenOracle).state
                have hsfs : (setManager (getAuthManager none a.env s).2
                    (getAccessToken m2 REQUIRED_SCOPES a.now a.tokenOracle).state).fs =
                    s.fs := getAuthManager_fs none a.env s
                rcases hE : ensureAuthRecord a.world a.authenticateResult
                    (setManager (getAuthManager none a.env s).2
                      (getAccessToken m2 REQUIRED_SCOPES a.now a.tokenOracle).state).fs
                    (getAccessToken m2 REQUIRED_SCOPES a.now a.tokenOracle).state
                  with ⟨e1, fs1, m3⟩
                rw [hE] at hfile
                dsimp only at hfile
                rw [hsfs] at hfile
                cases e1 with
                | some err =>
                    rcases hfile with h | ⟨rec, hrec, h⟩
                    · left; exact h
                    · right; exact ⟨rec, hrec, h⟩
                | none =>
                    rcases hfile with h | ⟨rec, hrec, h⟩
                    · left; exact h
                    · right; exact ⟨rec, hrec, h⟩
    · simp only [hc, Bool.not_false, if_true]
      left
      rw [getAuthManager_fs]

/-- C9. The only writes any operation ever performs to the account
record file are the serialization of an `AuthenticationRecord` returned
by the `authenticate` round trip of the provider (a structure holding only
account metadata: authority, home account id, tenant, username, client
id) — every step either leaves the file unchanged, deletes it, or writes
`serialize rec` for such a record; no bearer token string ever flows into
it. -/
theorem c9_record_file_writes_only_metadata (op : Op) (s : GlobalState) :
    (step op s).fs.authRecordFile = s.fs.authRecordFile
    ∨ (step op s).fs.authRecordFile = none
    ∨ (∃ w authRes rec, opWorldAuth op = some (w, authRes)
        ∧ authRes = Except.ok (some rec)
        ∧ (step op s).fs.authRecordFile = some (w.serialize rec)) := by
  cases op with
  | opGetAuthManager cfg env =>
      left
      simp only [step]
      rw [getAuthManager_fs]
  | opResetAuthManager => left; rfl
  | opIsAuthenticationReady => left; rfl
  | opLogout lenv =>
      rcases logout_file lenv s with h | h
      · left; exact h
      · right; left; exact h
  | opRequireAuthentication a =>
      rcases requireAuthentication_file a s with h | ⟨rec, hrec, h⟩
      · left; exact h
      · right; right; exact ⟨a.world, a.authenticateResult, rec, rfl, hrec, h⟩
  | opInitialize w =>
      left
      simp only [step]
      rw [onManager_fs]
  | opGetAccessToken scopes now oracle =>
      left
      simp only [step]
      rw [onManager_fs]
  | opClearCache =>
      left
      simp only [step]
      rw [onManager_fs]
  | opGetAuthStatus => left; rfl
  | opGetConfig => left; rfl
  | opEnsureAuthRecord w r =>
      simp only [step]
      cases hm : s.authManager with
      | none => left; rfl
      | some m =>
          dsimp only
          rcases ensureAuthRecord_file w r s.fs m with h | ⟨rec, hrec, h⟩
          · left; exact h
          · right; right; exact ⟨w, r, rec, rfl, hrec, h⟩

end M365
